import Mathlib

/-
Shallow embedding of src/TreadmillFB303.cpp: the Treadmill FB303 service
handler (status register, configuration store, control operations), the
global-singleton bootstrap, and the claims about them.
-/

namespace Treadmill

/-- Service status enumeration (facebook::fb303::cpp2::fb_status). -/
inductive FbStatus where
  | DEAD
  | STARTING
  | ALIVE
  | STOPPING
  | STOPPED
  | WARNING
  deriving DecidableEq

/-- Thrift request for resume2: carries a phase name. -/
structure ResumeRequest where
  phaseName : String
  deriving DecidableEq

/-- Thrift response for resume2: carries a success flag. -/
structure ResumeResponse where
  success : Bool
  deriving DecidableEq

/-- Modelled from the spec: the external Scheduler is not part of this
repository (only Scheduler.h is included by the source file); the spec
specifies it only at its interface boundary, as a component the handler
forwards calls to.  We model it as an abstract state type with one
transition per entry point the handler uses; resume returns the new
running state together with the boolean the handler forwards. -/
structure SchedulerModel (σ : Type) where
  pause : σ → σ
  resume : σ → σ × Bool
  setPhase : String → σ → σ
  setRps : Int → σ → σ
  setMaxOutstandingRequests : Int → σ → σ

/-- Handler state: the fields of TreadmillFB303 that its methods read or
write (status_, aliveSince_, configuration_).  The configuration map
std::map<std::string, std::string> is embedded as an association list. -/
structure FB303State where
  status_ : FbStatus
  aliveSince_ : Int
  configuration_ : List (String × String)
  deriving DecidableEq

/-- TreadmillFB303 constructor: status STARTING, aliveSince captured from
the clock at construction, empty configuration map. -/
def mkTreadmillFB303 (aliveTime : Int) : FB303State :=
  { status_ := FbStatus.STARTING, aliveSince_ := aliveTime, configuration_ := [] }

/-- std::map::count for the configuration map: number of entries with the
given key. -/
def configCount (m : List (String × String)) (k : String) : Nat :=
  (m.filter (fun p => p.1 == k)).length

/-- std::map::at for the configuration map: value stored at the key (only
used by the source under a count > 0 guard; absent defaults to ""). -/
def atConfig (m : List (String × String)) (k : String) : String :=
  ((m.find? (fun p => p.1 == k)).map (fun p => p.2)).getD ""

/-- std::map::emplace: inserts the pair only when no entry with the key
exists; when the key is already present the map is left unchanged. -/
def emplaceConfig (m : List (String × String)) (k v : String) : List (String × String) :=
  if configCount m k > 0 then m else (k, v) :: m

/-- TreadmillFB303::setStatus. -/
def setStatus (st : FB303State) (status : FbStatus) : FB303State :=
  { st with status_ := status }

/-- TreadmillFB303::getStatus. -/
def getStatus (st : FB303State) : FbStatus :=
  st.status_

/-- TreadmillFB303::aliveSince. -/
def aliveSince (st : FB303State) : Int :=
  st.aliveSince_

/-- Observable events emitted by the handler, in program order: calls into
the scheduler and the clearing of the configuration store.  Used to state
the ordering claims. -/
inductive Event where
  | schedPause
  | schedResume
  | schedSetPhase (phaseName : String)
  | configClear
  deriving DecidableEq

/-- TreadmillFB303::pause: scheduler_.pause(); configuration_->clear();
return true.  Result: (new handler and scheduler state, returned bool,
event trace in program order). -/
def pause {σ : Type} (M : SchedulerModel σ) (st : FB303State) (sched : σ) :
    (FB303State × σ) × Bool × List Event :=
  (({ st with configuration_ := [] }, M.pause sched), true,
    [Event.schedPause, Event.configClear])

/-- TreadmillFB303::resume: return scheduler_.resume(). -/
def resume {σ : Type} (M : SchedulerModel σ) (st : FB303State) (sched : σ) :
    (FB303State × σ) × Bool × List Event :=
  ((st, (M.resume sched).1), (M.resume sched).2, [Event.schedResume])

/-- Phase name extracted from a resume2 request, null request giving
"UNKNOWN_PHASE" (source line: req != nullptr ? req->get_phaseName() :
"UNKNOWN_PHASE"). -/
def phaseNameOf (req : Option ResumeRequest) : String :=
  match req with
  | some r => r.phaseName
  | none => "UNKNOWN_PHASE"

/-- TreadmillFB303::future_resume2: scheduler_.setPhase(phaseName), then
running = scheduler_.resume(), response.success = running. -/
def future_resume2 {σ : Type} (M : SchedulerModel σ) (req : Option ResumeRequest)
    (st : FB303State) (sched : σ) :
    (FB303State × σ) × ResumeResponse × List Event :=
  ((st, (M.resume (M.setPhase (phaseNameOf req) sched)).1),
    { success := (M.resume (M.setPhase (phaseNameOf req) sched)).2 },
    [Event.schedSetPhase (phaseNameOf req), Event.schedResume])

/-- TreadmillFB303::setRps: forwards to scheduler_.setRps. -/
def setRps {σ : Type} (M : SchedulerModel σ) (st : FB303State) (sched : σ)
    (rps : Int) : FB303State × σ :=
  (st, M.setRps rps sched)

/-- TreadmillFB303::setMaxOutstanding: forwards to
scheduler_.setMaxOutstandingRequests. -/
def setMaxOutstanding {σ : Type} (M : SchedulerModel σ) (st : FB303State) (sched : σ)
    (maxOutstanding : Int) : FB303State × σ :=
  (st, M.setMaxOutstandingRequests maxOutstanding sched)

/-- TreadmillFB303::future_getConfiguration: returns the stored value when
count(key) > 0, otherwise a fresh empty string. -/
def future_getConfiguration (st : FB303State) (key : String) : String :=
  if configCount st.configuration_ key > 0 then atConfig st.configuration_ key
  else ""

/-- TreadmillFB303::setConfiguration: configuration_->emplace(key, value). -/
def setConfiguration (st : FB303State) (key value : String) : FB303State :=
  { st with configuration_ := emplaceConfig st.configuration_ key value }

/-- ASCII decimal digit test. -/
def isDecDigit (c : Char) : Bool :=
  48 ≤ c.toNat && c.toNat ≤ 57

/-- Numeric value of an ASCII decimal digit. -/
def digitVal (c : Char) : Nat :=
  c.toNat - 48

/-- Model of folly::tryTo<uint32_t> on a stored string: succeeds exactly on
a nonempty all-digit decimal string whose value fits in 32 bits (folly is
an external library; the source only relies on success for
cleanly-parsing unsigned-integer strings and failure otherwise). -/
def parseUInt32 (s : String) : Option Nat :=
  if s.data ≠ [] ∧ s.data.all isDecDigit = true then
    (fun n => if n < 2 ^ 32 then some n else none)
      (s.data.foldl (fun acc c => acc * 10 + digitVal c) 0)
  else none

/-- TreadmillFB303::getConfigurationValue(key, uint32 defaultValue):
returns the parsed stored value when present and parsing succeeds; on
parse failure logs a warning and falls through to the default; when the
key is absent returns the default directly.  The Bool records whether the
warning was logged. -/
def getConfigurationValue (st : FB303State) (key : String) (defaultValue : Nat) :
    Nat × Bool :=
  if configCount st.configuration_ key > 0 then
    match parseUInt32 (atConfig st.configuration_ key) with
    | some result => (result, false)
    | none => (defaultValue, true)
  else (defaultValue, false)

/-- Outcome of an operation that may LOG(FATAL) (which terminates the
process and does not return). -/
inductive FatalOr (α : Type) where
  | fatal (msg : String)
  | ok (value : α)

/-- getGlobalTreadmillFB303: LOG(FATAL) when no instance is set, otherwise
returns the instance. -/
def getGlobalTreadmillFB303 (inst : Option FB303State) : FatalOr FB303State :=
  match inst with
  | none => FatalOr.fatal "No global Treadmill FB303 instance set"
  | some h => FatalOr.ok h

/-- TreadmillFB303::make_fb303, instance-initialization part: LOG(FATAL)
when the global instance is already set, otherwise constructs the handler
and stores it as the global instance. -/
def make_fb303 (inst : Option FB303State) (aliveTime : Int) :
    FatalOr (Option FB303State) :=
  match inst with
  | some _ => FatalOr.fatal "Global Treadmill FB303 instance was already set"
  | none => FatalOr.ok (some (mkTreadmillFB303 aliveTime))

/-- State-mutating RPC operations of the handler, for sequencing claims. -/
inductive Op where
  | setStatus (status : FbStatus)
  | pause
  | resume
  | resume2 (req : Option ResumeRequest)
  | setRps (rps : Int)
  | setMaxOutstanding (maxOutstanding : Int)
  | setConfiguration (key value : String)
  deriving DecidableEq

/-- Effect of one RPC operation on the handler and scheduler state. -/
def runOp {σ : Type} (M : SchedulerModel σ) : Op → FB303State × σ → FB303State × σ
  | Op.setStatus s, (st, sched) => (setStatus st s, sched)
  | Op.pause, (st, sched) => (pause M st sched).1
  | Op.resume, (st, sched) => (resume M st sched).1
  | Op.resume2 req, (st, sched) => (future_resume2 M req st sched).1
  | Op.setRps n, (st, sched) => setRps M st sched n
  | Op.setMaxOutstanding n, (st, sched) => setMaxOutstanding M st sched n
  | Op.setConfiguration k v, (st, sched) => (setConfiguration st k v, sched)

/-- Effect of a sequence of RPC operations, in order. -/
def runOps {σ : Type} (M : SchedulerModel σ) : List Op → FB303State × σ → FB303State × σ
  | [], p => p
  | op :: ops, p => runOps M ops (runOp M op p)

/-- Whether an operation writes the given configuration key. -/
def setsKey (k : String) : Op → Bool
  | Op.setConfiguration key _ => key == k
  | _ => false

/-- A trivial concrete scheduler used to instantiate the universally
quantified scheduler model on concrete runs. -/
def unitScheduler : SchedulerModel Unit where
  pause := fun _ => ()
  resume := fun _ => ((), true)
  setPhase := fun _ _ => ()
  setRps := fun _ _ => ()
  setMaxOutstandingRequests := fun _ _ => ()

/-- C1: the claim fails on the code at this input.  Since setConfiguration
uses std::map::emplace, which does not overwrite an existing key, after
setConfiguration("k", "a") followed by setConfiguration("k", "b") a read
of getConfiguration("k") still returns "a", not the newly-set value "b". -/
theorem setConfiguration_no_overwrite_at_failing_input :
    future_getConfiguration
      (setConfiguration (setConfiguration (mkTreadmillFB303 0) "k" "a") "k" "b") "k" = "a" ∧
    future_getConfiguration
      (setConfiguration (setConfiguration (mkTreadmillFB303 0) "k" "a") "k" "b") "k" ≠ "b" := by
  constructor
  · rfl
  · decide

/-- C2: pause always returns true, its event trace performs the scheduler
pause strictly before clearing the configuration store, and afterwards
getConfiguration returns the empty string for every key. -/
theorem pause_spec {σ : Type} (M : SchedulerModel σ) (st : FB303State) (sched : σ) :
    (pause M st sched).2.1 = true ∧
    (pause M st sched).2.2 = [Event.schedPause, Event.configClear] ∧
    ∀ k : String, future_getConfiguration ((pause M st sched).1).1 k = "" :=
  ⟨rfl, rfl, fun _ => rfl⟩

/-- C3: getConfigurationValue returns the parsed value with no warning when
the key is present and the stored value parses as uint32, the default with
a warning when the key is present but the stored value fails to parse, and
the default with no warning when the key is absent; it is a total function
and raises no error. -/
theorem getConfigurationValue_spec (st : FB303State) (key : String) (d : Nat) :
    (configCount st.configuration_ key = 0 →
      getConfigurationValue st key d = (d, false)) ∧
    (∀ n : Nat, configCount st.configuration_ key > 0 →
      parseUInt32 (atConfig st.configuration_ key) = some n →
      getConfigurationValue st key d = (n, false)) ∧
    (configCount st.configuration_ key > 0 →
      parseUInt32 (atConfig st.configuration_ key) = none →
      getConfigurationValue st key d = (d, true)) := by
  refine ⟨fun h0 => ?_, fun n hpos hparse => ?_, fun hpos hparse => ?_⟩
  · simp [getConfigurationValue, h0]
  · simp [getConfigurationValue, hpos, hparse]
  · simp [getConfigurationValue, hpos, hparse]

/-- Witness for C3 at concrete inputs: stored "42" parses to 42 with no
warning, stored "abc" falls back to default 7 with a warning, absent key
falls back to default 7 with no warning. -/
theorem getConfigurationValue_spec_witness :
    getConfigurationValue (setConfiguration (mkTreadmillFB303 0) "num" "42") "num" 7
      = (42, false) ∧
    getConfigurationValue (setConfiguration (mkTreadmillFB303 0) "num" "abc") "num" 7
      = (7, true) ∧
    getConfigurationValue (mkTreadmillFB303 0) "num" 7 = (7, false) :=
  ⟨(getConfigurationValue_spec (setConfiguration (mkTreadmillFB303 0) "num" "42") "num" 7).2.1
      42 (by decide) (by decide),
   (getConfigurationValue_spec (setConfiguration (mkTreadmillFB303 0) "num" "abc") "num" 7).2.2
      (by decide) (by decide),
   (getConfigurationValue_spec (mkTreadmillFB303 0) "num" 7).1 (by decide)⟩

/-- C4: calling the global accessor before the bootstrap has set the
instance hits LOG(FATAL); bootstrapping a second time while an instance
exists hits LOG(FATAL); and the only non-fatal outcome of the accessor is
the stored instance itself, never an empty handle. -/
theorem singleton_usage_errors :
    getGlobalTreadmillFB303 none
      = FatalOr.fatal "No global Treadmill FB303 instance set" ∧
    (∀ (h : FB303State) (t : Int),
      make_fb303 (some h) t
        = FatalOr.fatal "Global Treadmill FB303 instance was already set") ∧
    (∀ h : FB303State, getGlobalTreadmillFB303 (some h) = FatalOr.ok h) :=
  ⟨rfl, fun _ _ => rfl, fun _ => rfl⟩

/-- C5: getStatus immediately after construction is STARTING, and after
setStatus(S) with no intervening setStatus, getStatus returns exactly S. -/
theorem status_init_and_set (t : Int) (st : FB303State) (s : FbStatus) :
    getStatus (mkTreadmillFB303 t) = FbStatus.STARTING ∧
    getStatus (setStatus st s) = s :=
  ⟨rfl, rfl⟩

theorem configCount_zero_runOp {σ : Type} (M : SchedulerModel σ) (op : Op)
    (st : FB303State) (sched : σ) (k : String)
    (hop : setsKey k op = false)
    (h : configCount st.configuration_ k = 0) :
    configCount ((runOp M op (st, sched)).1).configuration_ k = 0 := by
  cases op with
  | setStatus s => exact h
  | pause => rfl
  | resume => exact h
  | resume2 req => exact h
  | setRps n => exact h
  | setMaxOutstanding n => exact h
  | setConfiguration key v =>
      simp only [setsKey, beq_eq_false_iff_ne, ne_eq] at hop
      simp only [runOp, setConfiguration, emplaceConfig]
      split
      · exact h
      · simpa [configCount, List.filter_cons, hop] using h

theorem configCount_zero_runOps {σ : Type} (M : SchedulerModel σ) (ops : List Op)
    (p : FB303State × σ) (k : String)
    (hops : ops.all (fun o => !setsKey k o) = true)
    (h : configCount p.1.configuration_ k = 0) :
    configCount ((runOps M ops p).1).configuration_ k = 0 := by
  induction ops generalizing p with
  | nil => exact h
  | cons op ops ih =>
      simp only [List.all_cons, Bool.and_eq_true, Bool.not_eq_eq_eq_not,
        Bool.not_true] at hops
      exact ih (runOp M op p)
        (by simpa using hops.2)
        (configCount_zero_runOp M op p.1 p.2 k hops.1 h)

/-- C6: for every key that no operation of the run ever set (starting from
a freshly constructed handler), getConfiguration returns the empty string;
it is a total function and raises no error. -/
theorem getConfiguration_never_set {σ : Type} (M : SchedulerModel σ)
    (ops : List Op) (k : String) (t : Int) (sched : σ)
    (hops : ops.all (fun o => !setsKey k o) = true) :
    future_getConfiguration ((runOps M ops (mkTreadmillFB303 t, sched)).1) k = "" := by
  have h := configCount_zero_runOps M ops (mkTreadmillFB303 t, sched) k hops rfl
  simp [future_getConfiguration, h]

/-- Witness for C6: a concrete run that sets keys "a" and "c" but never
"b"; reading "b" afterwards yields the empty string. -/
theorem getConfiguration_never_set_witness :
    future_getConfiguration ((runOps unitScheduler
      [Op.setConfiguration "a" "1", Op.pause, Op.setConfiguration "c" "2",
        Op.setStatus FbStatus.ALIVE]
      (mkTreadmillFB303 0, ())).1) "b" = "" :=
  getConfiguration_never_set unitScheduler
    [Op.setConfiguration "a" "1", Op.pause, Op.setConfiguration "c" "2",
      Op.setStatus FbStatus.ALIVE]
    "b" 0 () (by decide)

/-- C7: resume2 with an absent request behaves identically to a request
carrying phase name "UNKNOWN_PHASE"; every call emits the scheduler
setPhase event strictly before the scheduler resume event, the resume is
issued against the post-setPhase scheduler state, and the response success
field equals exactly the boolean that scheduler resume call returned. -/
theorem resume2_spec {σ : Type} (M : SchedulerModel σ) (st : FB303State) (sched : σ) :
    future_resume2 M none st sched
      = future_resume2 M (some { phaseName := "UNKNOWN_PHASE" }) st sched ∧
    (∀ req : Option ResumeRequest,
      (future_resume2 M req st sched).2.2
        = [Event.schedSetPhase (phaseNameOf req), Event.schedResume] ∧
      ((future_resume2 M req st sched).2.1).success
        = (M.resume (M.setPhase (phaseNameOf req) sched)).2) :=
  ⟨rfl, fun _ => ⟨rfl, rfl⟩⟩

/-- C8: aliveSince is captured at construction and every operation leaves
it unchanged, so after any sequence of operations from construction it
still returns the construction-time value. -/
theorem aliveSince_immutable {σ : Type} (M : SchedulerModel σ) :
    (∀ (op : Op) (st : FB303State) (sched : σ),
      aliveSince ((runOp M op (st, sched)).1) = aliveSince st) ∧
    (∀ (ops : List Op) (t : Int) (sched : σ),
      aliveSince ((runOps M ops (mkTreadmillFB303 t, sched)).1) = t) := by
  have hop : ∀ (op : Op) (p : FB303State × σ),
      aliveSince ((runOp M op p).1) = aliveSince p.1 := by
    intro op p
    obtain ⟨st, sched⟩ := p
    cases op <;> rfl
  have hops : ∀ (ops : List Op) (p : FB303State × σ),
      aliveSince ((runOps M ops p).1) = aliveSince p.1 := by
    intro ops
    induction ops with
    | nil => intro p; rfl
    | cons op ops ih =>
        intro p
        calc aliveSince ((runOps M ops (runOp M op p)).1)
            = aliveSince ((runOp M op p).1) := ih (runOp M op p)
          _ = aliveSince p.1 := hop op p
  exact ⟨fun op st sched => hop op (st, sched), fun ops t sched => hops ops _⟩

/-- C9: pause, resume, resume2, setRps, setMaxOutstanding and
setConfiguration all leave the stored status unchanged; only setStatus
replaces it. -/
theorem control_ops_preserve_status {σ : Type} (M : SchedulerModel σ)
    (st : FB303State) (sched : σ) :
    getStatus ((runOp M Op.pause (st, sched)).1) = getStatus st ∧
    getStatus ((runOp M Op.resume (st, sched)).1) = getStatus st ∧
    (∀ req : Option ResumeRequest,
      getStatus ((runOp M (Op.resume2 req) (st, sched)).1) = getStatus st) ∧
    (∀ n : Int, getStatus ((runOp M (Op.setRps n) (st, sched)).1) = getStatus st) ∧
    (∀ n : Int,
      getStatus ((runOp M (Op.setMaxOutstanding n) (st, sched)).1) = getStatus st) ∧
    (∀ k v : String,
      getStatus ((runOp M (Op.setConfiguration k v) (st, sched)).1) = getStatus st) ∧
    (∀ s : FbStatus, getStatus ((runOp M (Op.setStatus s) (st, sched)).1) = s) :=
  ⟨rfl, rfl, fun _ => rfl, fun _ => rfl, fun _ => rfl, fun _ _ => rfl, fun _ => rfl⟩

end Treadmill
